import Mathlib

/-!
Verification development for the FlowRunner extensions repository
(`src/airtable/src/index.js` and the Telegram service source).

The JavaScript sources are shallowly embedded: remote calls are abstracted
into their returned data (the fetch result is an explicit argument), JSON
cell values are modelled as strings, absent JSON members as `Option`, and
JavaScript truthiness of possibly-absent strings (`x || d`) via `jsOrString`.
-/

namespace FlowRunner

/-- JavaScript `x || d` for a possibly-absent string `x`: the fallback `d` is
used when `x` is `undefined`/`null` (here `none`) or the empty string
(which is falsy in JavaScript). -/
def jsOrString (x : Option String) (d : String) : String :=
  match x with
  | some s => if s = "" then d else s
  | none => d

/-! ## Polling change detection (`onNewOrUpdatedRecord`, `onNewRecord`)

An Airtable record has a stable string `id` and a JSON object `fields`
mapping column names to cell values; Airtable omits empty cells, so a
lookup returns `Option String`. -/

structure AirRecord where
  id : String
  fields : List (String × String)
deriving DecidableEq, Repr

/-- JavaScript `record.fields[col]`: `none` models `undefined` (absent key). -/
def getField (r : AirRecord) (col : String) : Option String :=
  (r.fields.find? (fun p => p.1 == col)).map (·.2)

/-- The inbound trigger invocation, reduced to the members the triggers read:
`invocation.learningMode` and `invocation.state?.records` (`none` models a
null/absent state as well as a state without a `records` member). -/
structure Invocation where
  learningMode : Bool
  state : Option (List AirRecord)
deriving DecidableEq, Repr

/-- The outbound trigger result `{events, state}`.  `events` holds optional
records because in learning mode the source returns `[records[0]]`, whose
single element is `undefined` when the fetch came back empty. -/
structure TriggerResult where
  events : List (Option AirRecord)
  state : Option (List AirRecord)
deriving DecidableEq, Repr

/-- The filter predicate of `onNewOrUpdatedRecord`:
`!prevRecords.has(record.id) || record.fields[col] !== prevRecords.get(record.id)`
where `prevRecords = new Map(state.records.map(({id, fields}) => [id, fields[col]]))`.
A JavaScript `Map` built from a pair list keeps the last occurrence of a
duplicated key, hence the lookup over the reversed snapshot. -/
def isNewOrUpdated (prev : List AirRecord) (col : String) (r : AirRecord) : Bool :=
  match prev.reverse.find? (fun p => p.id == r.id) with
  | none => true
  | some p => getField r col != getField p col

/-- The watch-field value a snapshot stores for an id (the `Map` keeps the
last occurrence of a duplicated id); `none` when the id is absent or the
stored record lacks the column. -/
def storedValue (prev : List AirRecord) (col : String) (i : String) : Option String :=
  match prev.reverse.find? (fun p => p.id == i) with
  | none => none
  | some p => getField p col

/-- `onNewOrUpdatedRecord` with the remote fetch abstracted into its result
`records` (the current record list, sorted by the remote).  Mirrors
src/airtable/src/index.js lines 678-720: learning mode returns
`[records[0]]` and a null state; a null/absent snapshot bootstraps; otherwise
the records are filtered against the previous snapshot and the state is
replaced wholesale by the current list. -/
def onNewOrUpdatedRecord (inv : Invocation) (records : List AirRecord)
    (lastModifiedColumn : String) : TriggerResult :=
  if inv.learningMode then
    { events := [records.head?], state := none }
  else
    match inv.state with
    | none => { events := [], state := some records }
    | some prevRecords =>
      { events := (records.filter (isNewOrUpdated prevRecords lastModifiedColumn)).map some,
        state := some records }

/-- `onNewRecord` with the remote fetch abstracted into its result.  Mirrors
src/airtable/src/index.js lines 771-799: same learning and bootstrap paths,
and the incremental path keeps exactly the records whose id is absent from
the previous snapshot (`new Set(state.records.map(({id}) => id))`). -/
def onNewRecord (inv : Invocation) (records : List AirRecord) : TriggerResult :=
  if inv.learningMode then
    { events := [records.head?], state := none }
  else
    match inv.state with
    | none => { events := [], state := some records }
    | some prevRecords =>
      { events := (records.filter (fun r => !(prevRecords.any (fun p => p.id == r.id)))).map some,
        state := some records }

/-! ## Credential lifecycle (`getOAuth2ConnectionURL`, `executeCallback`, `refreshToken`) -/

/-- A parsed token-endpoint response body: `access_token`, and the optional
`expires_in` and `refresh_token` members. -/
structure TokenResponse where
  access_token : String
  expires_in : Option Int
  refresh_token : Option String
deriving DecidableEq, Repr

/-- A parsed `/meta/whoami` response body: the account id and the optional
`email` member (the source falls back to a placeholder when it is falsy). -/
structure UserInfo where
  id : String
  email : Option String
deriving DecidableEq, Repr

/-- The inbound authorization-callback object: `{code, redirectURI, state}`. -/
structure CallbackObject where
  code : String
  redirectURI : String
  state : String
deriving DecidableEq, Repr

/-- The value `executeCallback` returns to the host: either the empty object
`{}` (after a swallowed failure) or the normalized credential result. -/
inductive CallbackResult where
  | empty : CallbackResult
  | result (token : String) (expirationInSeconds : Option Int)
      (refreshToken : Option String) (connectionIdentityName : String)
      (connectionIdentityImageURL : Option String) (overwrite : Bool)
      (userData : UserInfo) : CallbackResult
deriving DecidableEq, Repr

def OAUTH_BASE_URL : String := "https://airtable.com/oauth2/v1"

def DEFAULT_SCOPE_LIST : List String :=
  ["schema.bases:read", "user.email:read", "webhook:manage", "schema.bases:write",
   "data.records:read", "data.records:write", "data.recordComments:read",
   "data.recordComments:write"]

/-- `DEFAULT_SCOPE_LIST.join(' ')`. -/
def DEFAULT_SCOPE_STRING : String := String.intercalate " " DEFAULT_SCOPE_LIST

/-- An authorization URL split into its base and its query parameters, in
the order `URLSearchParams.append` received them. -/
structure AuthURL where
  base : String
  params : List (String × String)
deriving DecidableEq, Repr

/-- Lookup of a query or form parameter by key. -/
def lookupParam (ps : List (String × String)) (k : String) : Option String :=
  (ps.find? (fun p => p.1 == k)).map (·.2)

/-- `getOAuth2ConnectionURL` (src/airtable/src/index.js lines 124-138).
`generateCodeVerifier` and `generateCodeChallenge` live in
`src/airtable/src/utils.js`, which is not part of the sources; the spec says
the verifier is a fresh random string and the challenge a one-way transform
of it, so the verifier is taken as an input and the transform as an
arbitrary function parameter `genChallenge`. -/
def getOAuth2ConnectionURL (genChallenge : String → String) (clientId : String)
    (codeVerifier : String) : AuthURL :=
  { base := OAUTH_BASE_URL ++ "/authorize",
    params :=
      [("client_id", clientId),
       ("response_type", "code"),
       ("scope", DEFAULT_SCOPE_STRING),
       ("code_challenge", genChallenge codeVerifier),
       ("code_challenge_method", "S256"),
       ("state", codeVerifier)] }

/-- The form parameters `executeCallback` POSTs to the token endpoint
(src/airtable/src/index.js lines 198-204); note `code_verifier` is taken
from the callback object's `state` member. -/
def executeCallbackTokenParams (clientSecret : String) (cb : CallbackObject) :
    List (String × String) :=
  [("grant_type", "authorization_code"),
   ("client_secret", clientSecret),
   ("code", cb.code),
   ("redirect_uri", cb.redirectURI),
   ("code_verifier", cb.state)]

/-- `executeCallback` (src/airtable/src/index.js lines 197-244) with the two
remote calls abstracted into functions from their request data to a result:
`tokenEndpoint` receives the form parameters, and `whoami` the access token
used in its `Authorization` header.  Either failure is caught and the empty
object returned; double success yields the normalized credential result. -/
def executeCallback (clientSecret : String) (cb : CallbackObject)
    (tokenEndpoint : List (String × String) → Except String TokenResponse)
    (whoami : String → Except String UserInfo) : CallbackResult :=
  match tokenEndpoint (executeCallbackTokenParams clientSecret cb) with
  | Except.error _ => CallbackResult.empty
  | Except.ok codeExchangeResponse =>
    match whoami codeExchangeResponse.access_token with
    | Except.error _ => CallbackResult.empty
    | Except.ok userInfo =>
      CallbackResult.result codeExchangeResponse.access_token
        codeExchangeResponse.expires_in codeExchangeResponse.refresh_token
        (jsOrString userInfo.email "Unknown Airtable Account") none true userInfo

/-- The value `refreshToken` returns on success. -/
structure RefreshResult where
  token : String
  expirationInSeconds : Option Int
  refreshToken : String
deriving DecidableEq, Repr

/-- `refreshToken` (src/airtable/src/index.js lines 153-175) with the
token-endpoint POST abstracted into its outcome.  A failure is re-thrown
after logging; on success `refreshToken` is
`response.refresh_token || refreshToken` (JavaScript truthiness). -/
def refreshTokenCall (refreshToken : String)
    (tokenPost : Except String TokenResponse) : Except String RefreshResult :=
  match tokenPost with
  | Except.error e => Except.error e
  | Except.ok response =>
    Except.ok
      { token := response.access_token,
        expirationInSeconds := response.expires_in,
        refreshToken := jsOrString response.refresh_token refreshToken }

/-! ## Cursor-paginated search index (the dictionary operations) -/

/-- Char-list prefix test (`a == b` pointwise). -/
def charsPrefix : List Char → List Char → Bool
  | [], _ => true
  | _ :: _, [] => false
  | a :: as, b :: bs => a == b && charsPrefix as bs

/-- Char-list substring test: `needle` occurs contiguously in the second list. -/
def charsSub (needle : List Char) : List Char → Bool
  | [] => needle.isEmpty
  | b :: bs => charsPrefix needle (b :: bs) || charsSub needle bs

/-- Character-wise lowercasing of a string (JavaScript `toLowerCase`),
written over the character list so it computes by structural recursion. -/
def lowerChars (s : String) : List Char :=
  s.toList.map Char.toLower

/-- Case-insensitive substring containment, the match rule of the local
dictionary filter (JavaScript `hay.toLowerCase().includes(needle.toLowerCase())`). -/
def containsCI (hay needle : String) : Bool :=
  charsSub (lowerChars needle) (lowerChars hay)

/-- Modelled from the spec: `searchFilter` is imported from
`src/airtable/src/utils.js`, a file missing from the sources; per the spec it
keeps exactly the items where any of the named `fields` contains `search`
as a case-insensitive substring.  `get` abstracts the JavaScript member
access `item[field]`; an absent member never matches. -/
def searchFilter (get : α → String → Option String) (items : List α)
    (fields : List String) (search : String) : List α :=
  items.filter (fun it =>
    fields.any (fun f =>
      match get it f with
      | some v => containsCI v search
      | none => false))

/-- One projected selector entry `{label, note, value}`. -/
structure DictItem where
  label : String
  note : String
  value : String
deriving DecidableEq, Repr

/-- One page of `/meta/bases`: the `bases` array (each base an `{id, name}`
object, `name` possibly absent or empty) and the optional `offset` member
relayed as the next cursor. -/
structure Base where
  id : String
  name : Option String
deriving DecidableEq, Repr

structure BasesPage where
  bases : List Base
  offset : Option String
deriving DecidableEq, Repr

structure BasesDictResult where
  items : List DictItem
  cursor : Option String
deriving DecidableEq, Repr

/-- Member access on a base for the filter fields `['id', 'name']`. -/
def baseGet (b : Base) : String → Option String
  | "id" => some b.id
  | "name" => b.name
  | _ => none

/-- The projection `{label: name || '[empty]', note: 'ID: ' + id, value: id}`. -/
def projBase (b : Base) : DictItem :=
  { label := jsOrString b.name "[empty]", note := "ID: " ++ b.id, value := b.id }

/-- `getBasesDictionary` (src/airtable/src/index.js lines 314-335) with the
single remote page fetch abstracted into its result `page`.  An empty
`search` (JavaScript falsy) skips the filter; the remote `offset` is
returned verbatim as the cursor. -/
def getBasesDictionary (page : BasesPage) (search : String) : BasesDictResult :=
  { cursor := page.offset,
    items :=
      (if search ≠ "" then searchFilter baseGet page.bases ["id", "name"] search
       else page.bases).map projBase }

/-- A field of a table schema: `{id, name, type}`. -/
structure TField where
  id : String
  name : String
  type : String
deriving DecidableEq, Repr

/-- A table of a base schema: `{id, name, fields}`. -/
structure Table where
  id : String
  name : String
  fields : List TField
deriving DecidableEq, Repr

structure TablesDictResult where
  items : List DictItem
deriving DecidableEq, Repr

/-- Member access on a table for the filter fields `['id', 'name']`. -/
def tableGet (t : Table) : String → Option String
  | "id" => some t.id
  | "name" => some t.name
  | _ => none

def projTable (t : Table) : DictItem :=
  { label := jsOrString (some t.name) "[empty]", note := "ID: " ++ t.id, value := t.id }

/-- `getTablesDictionary` (src/airtable/src/index.js lines 361-378) with the
schema fetch abstracted into the `tables` array; the result carries no
cursor member. -/
def getTablesDictionary (tables : List Table) (search : String) : TablesDictResult :=
  { items :=
      (if search ≠ "" then searchFilter tableGet tables ["id", "name"] search
       else tables).map projTable }

/-- The outcome of a JavaScript method that can throw: a value, an explicit
`throw new Error(msg)`, or a `TypeError` from dereferencing `undefined`. -/
inductive JsOutcome (α : Type) where
  | ok : α → JsOutcome α
  | thrown : String → JsOutcome α
  | typeError : JsOutcome α
deriving DecidableEq, Repr

/-- Member access on a schema field for the filter fields `['id', 'name']`. -/
def fieldGet (f : TField) : String → Option String
  | "id" => some f.id
  | "name" => some f.name
  | _ => none

def projField (f : TField) : DictItem :=
  { label := jsOrString (some f.name) "[empty]", note := "ID: " ++ f.id, value := f.name }

structure FieldsDictResult where
  items : List DictItem
deriving DecidableEq, Repr

/-- `getFieldsDictionary` (src/airtable/src/index.js lines 405-423) with the
schema fetch abstracted into the `tables` array.  The table is resolved with
`tables.find(table => table.id === tableIdOrName)` - by id only - and
`currentTable.fields` is then dereferenced unconditionally, so a miss is a
`TypeError`. -/
def getFieldsDictionary (tables : List Table) (tableIdOrName : String)
    (search : String) : JsOutcome FieldsDictResult :=
  match tables.find? (fun t => t.id == tableIdOrName) with
  | none => JsOutcome.typeError
  | some currentTable =>
    JsOutcome.ok
      { items :=
          (if search ≠ "" then
            searchFilter fieldGet currentTable.fields ["id", "name"] search
           else currentTable.fields).map projField }

/-- `#getTableSchema` (src/airtable/src/index.js lines 265-271): the shared
schema helper matches `table.id === tableIdOrName || table.name === tableIdOrName`. -/
def getTableSchema (tables : List Table) (tableIdOrName : String) : Option Table :=
  tables.find? (fun t => t.id == tableIdOrName || t.name == tableIdOrName)

/-- `#getCreatedColumnName` (src/airtable/src/index.js lines 804-818): the
table is resolved by id only and `currentTable.fields` dereferenced
unconditionally (`TypeError` on a miss); a found table without a
`createdTime` field raises an explicit error. -/
def getCreatedColumnName (tables : List Table) (tableIdOrName : String) :
    JsOutcome String :=
  match tables.find? (fun t => t.id == tableIdOrName) with
  | none => JsOutcome.typeError
  | some currentTable =>
    match currentTable.fields.find? (fun f => f.type == "createdTime") with
    | none =>
      JsOutcome.thrown
        ("There is no a column with type \"createdTime\" in the \"" ++
          tableIdOrName ++ "\" table")
    | some createdColumn => JsOutcome.ok createdColumn.name

/-! ## Telegram `getChatsDictionary` -/

/-- A Telegram chat object as read by `getChatsDictionary`. -/
structure TgChat where
  id : Int
  type : String
  title : String
  username : String
  first_name : String
  last_name : String
  member_count : Option Nat
deriving DecidableEq, Repr

/-- One `getUpdates` entry, reduced to the member the dictionary reads:
`update.message?.chat`. -/
structure TgUpdate where
  message_chat : Option TgChat
deriving DecidableEq, Repr

/-- `searchInText(source, search)` of the Telegram source:
`source.toLowerCase().includes(search)` (the caller lowercases `search`). -/
def searchInText (source search : String) : Bool :=
  charsSub search.toList (lowerChars source)

/-- The match test of `getChatsDictionary` for a chat against a non-empty
(already lowercased and trimmed) search.  The source first compares
`chat.id === search`, a number against a string, which is always false
under JavaScript strict equality, so only the text matches remain. -/
def chatMatches (chat : TgChat) (search : String) : Bool :=
  if chat.type == "private" then
    searchInText chat.username search ||
      searchInText (chat.first_name ++ " " ++ chat.last_name) search
  else
    searchInText chat.title search

def chatLabel (chat : TgChat) : String :=
  if chat.type == "private" then
    chat.first_name ++ " " ++ chat.last_name ++ " (" ++ chat.type ++ ")"
  else
    chat.title ++ " (" ++ chat.type ++ ")"

/-- The note string; `chat.member_count ? ', Members: ' + n : ''` makes a
member count of `0` (falsy) behave like an absent one. -/
def chatNote (chat : TgChat) : String :=
  if chat.type == "private" then
    "ID: " ++ toString chat.id ++ ", @" ++ chat.username
  else
    "ID: " ++ toString chat.id ++
      (match chat.member_count with
       | some n => if n = 0 then "" else ", Members: " ++ toString n
       | none => "")

/-- The `chatsSet` accumulation of `getChatsDictionary`: walk the updates in
order, skip entries without a chat, keep only the first occurrence of each
chat id, and drop chats failing a non-empty search. -/
def collectChats (updates : List TgUpdate) (search : String) : List DictItem :=
  (updates.foldl
    (fun acc u =>
      match u.message_chat with
      | none => acc
      | some chat =>
        if acc.any (fun p => p.1 == chat.id) then acc
        else if search ≠ "" && !(chatMatches chat search) then acc
        else
          acc ++ [(chat.id,
            { label := chatLabel chat, note := chatNote chat,
              value := toString chat.id })])
    ([] : List (Int × DictItem))).map (·.2)

structure ChatsDictResult where
  items : List DictItem
  cursor : Option Nat
deriving DecidableEq, Repr

/-- Telegram `getChatsDictionary` (the service source, README lines 529-589)
with the `getUpdates` call abstracted into a function from the offset it is
queried with to the returned updates.  `cursor || 0` maps an absent cursor
to `0`, and the returned cursor is always `cursor + 1`. -/
def getChatsDictionary (getUpdates : Nat → List TgUpdate) (rawSearch : String)
    (cursor : Option Nat) : ChatsDictResult :=
  let search := rawSearch.toLower.trim
  let c := cursor.getD 0
  { items := collectChats (getUpdates c) search,
    cursor := some (c + 1) }

/-- The cursor obtained after `n + 1` successive calls of `getChatsDictionary`
against a fixed backing collection, each call fed the previous call's cursor
(the first call starts with no cursor). -/
def chatsCursorAfter (getUpdates : Nat → List TgUpdate) (rawSearch : String) :
    Nat → Option Nat
  | 0 => (getChatsDictionary getUpdates rawSearch none).cursor
  | n + 1 =>
    (getChatsDictionary getUpdates rawSearch
      (chatsCursorAfter getUpdates rawSearch n)).cursor

/-- Concrete schema used to exercise the table-lookup paths: one table whose
id is `tbl1` and whose name is `Tasks`. -/
def sampleTasksTable : Table :=
  { id := "tbl1", name := "Tasks",
    fields := [{ id := "fld1", name := "Created", type := "createdTime" }] }

def sampleTables : List Table := [sampleTasksTable]

/-! ## Theorems -/

/-- Claim C2: with a null or absent snapshot and learning mode off, both
polling triggers return no events and a state holding exactly the fetched
record list, whatever that list contains. -/
theorem bootstrap_invariant (records : List AirRecord) (col : String) :
    onNewOrUpdatedRecord { learningMode := false, state := none } records col =
      { events := [], state := some records } ∧
    onNewRecord { learningMode := false, state := none } records =
      { events := [], state := some records } :=
  ⟨rfl, rfl⟩

/-- Claim C3, counterexample: on an empty fetch in learning mode the events
list is `[records[0]]` with `records[0]` equal to `undefined`, a one-element
list, not the empty list the claim predicts. -/
theorem learning_empty_fetch_counterexample :
    (onNewOrUpdatedRecord { learningMode := true, state := none } []
        "Last Modified").events ≠ [] ∧
    (onNewRecord { learningMode := true, state := none } []).events ≠ [] := by
  constructor <;> decide

/-- Claim C3, amended: in learning mode both triggers always return a
one-element events list whose element is the first fetched record, or the
undefined placeholder when the fetch came back empty, and a null state. -/
theorem learning_mode_result_shape (st : Option (List AirRecord))
    (records : List AirRecord) (col : String) :
    onNewOrUpdatedRecord { learningMode := true, state := st } records col =
      { events := [records.head?], state := none } ∧
    onNewRecord { learningMode := true, state := st } records =
      { events := [records.head?], state := none } :=
  ⟨rfl, rfl⟩

/-- Claim C4: in learning mode `onNewOrUpdatedRecord` is indifferent to the
supplied snapshot - two invocations differing only in the state yield
identical results - and the returned state is always null. -/
theorem learning_mode_purity (s₁ s₂ : Option (List AirRecord))
    (records : List AirRecord) (col : String) :
    onNewOrUpdatedRecord { learningMode := true, state := s₁ } records col =
      onNewOrUpdatedRecord { learningMode := true, state := s₂ } records col ∧
    (onNewOrUpdatedRecord { learningMode := true, state := s₁ } records col).state = none :=
  ⟨rfl, rfl⟩

/-- Claim C5: `executeCallback` swallows a failure of either remote step and
returns the empty object; when both steps succeed it returns the normalized
credential result with the access token, expiry, refresh token and account
label. -/
theorem executeCallback_error_swallowing :
    (∀ (cs : String) (cb : CallbackObject) (e : String)
        (w : String → Except String UserInfo),
        executeCallback cs cb (fun _ => Except.error e) w = CallbackResult.empty) ∧
    (∀ (cs : String) (cb : CallbackObject) (tok : TokenResponse) (e : String),
        executeCallback cs cb (fun _ => Except.ok tok) (fun _ => Except.error e) =
          CallbackResult.empty) ∧
    (∀ (cs : String) (cb : CallbackObject) (tok : TokenResponse) (u : UserInfo),
        executeCallback cs cb (fun _ => Except.ok tok) (fun _ => Except.ok u) =
          CallbackResult.result tok.access_token tok.expires_in tok.refresh_token
            (jsOrString u.email "Unknown Airtable Account") none true u) :=
  ⟨fun _ _ _ _ => rfl, fun _ _ _ _ => rfl, fun _ _ _ _ => rfl⟩

/-- Claim C6, counterexample: when the remote response carries a present but
empty `refresh_token` (falsy in JavaScript), the result's `refreshToken` is
the input token, not the present remote value the claim predicts. -/
theorem refreshToken_present_empty_counterexample :
    refreshTokenCall "stored-refresh"
        (Except.ok { access_token := "at", expires_in := some 3600,
                     refresh_token := some "" }) =
      Except.ok { token := "at", expirationInSeconds := some 3600,
                  refreshToken := "stored-refresh" } ∧
    ("stored-refresh" : String) ≠ "" :=
  ⟨rfl, by decide⟩

/-- Claim C6, amended: on success the result's `refreshToken` equals the
remote `refresh_token` when it is present and non-empty (truthy), and the
input refresh token when it is absent or empty; a token-endpoint failure
propagates to the caller unchanged. -/
theorem refreshToken_semantics (input : String) :
    (∀ e, refreshTokenCall input (Except.error e) = Except.error e) ∧
    (∀ r : TokenResponse,
        refreshTokenCall input (Except.ok r) =
          Except.ok { token := r.access_token, expirationInSeconds := r.expires_in,
                      refreshToken := jsOrString r.refresh_token input }) ∧
    (∀ (r : TokenResponse) (t : String), r.refresh_token = some t → t ≠ "" →
        refreshTokenCall input (Except.ok r) =
          Except.ok { token := r.access_token, expirationInSeconds := r.expires_in,
                      refreshToken := t }) ∧
    (∀ r : TokenResponse, r.refresh_token = none →
        refreshTokenCall input (Except.ok r) =
          Except.ok { token := r.access_token, expirationInSeconds := r.expires_in,
                      refreshToken := input }) := by
  refine ⟨fun _ => rfl, fun _ => rfl, ?_, ?_⟩
  · intro r t ht hne
    simp [refreshTokenCall, jsOrString, ht, hne]
  · intro r hr
    simp [refreshTokenCall, jsOrString, hr]

/-- Claim C6, witness: a rotated non-empty remote refresh token is returned
as-is. -/
theorem refreshToken_semantics_witness :
    (({ access_token := "at", expires_in := some 3600,
        refresh_token := some "newtok" } : TokenResponse).refresh_token =
      some "newtok") ∧
    ("newtok" : String) ≠ "" ∧
    refreshTokenCall "old"
        (Except.ok { access_token := "at", expires_in := some 3600,
                     refresh_token := some "newtok" }) =
      Except.ok { token := "at", expirationInSeconds := some 3600,
                  refreshToken := "newtok" } :=
  ⟨rfl, by decide,
    (refreshToken_semantics "old").2.2.1 _ "newtok" rfl (by decide)⟩

/-- Claim C7: the authorization URL's query holds `client_id`,
`response_type=code`, the space-joined scope list, the derived
`code_challenge`, `code_challenge_method=S256` and `state` set to the code
verifier; and `executeCallback` sends the callback's `state` member as the
`code_verifier` form parameter, so a callback carrying the URL's `state`
hands the very same verifier back to the token exchange. -/
theorem authorization_url_and_pkce_roundtrip (genChallenge : String → String)
    (clientId codeVerifier : String) :
    lookupParam (getOAuth2ConnectionURL genChallenge clientId codeVerifier).params
        "client_id" = some clientId ∧
    lookupParam (getOAuth2ConnectionURL genChallenge clientId codeVerifier).params
        "response_type" = some "code" ∧
    lookupParam (getOAuth2ConnectionURL genChallenge clientId codeVerifier).params
        "scope" = some (String.intercalate " " DEFAULT_SCOPE_LIST) ∧
    lookupParam (getOAuth2ConnectionURL genChallenge clientId codeVerifier).params
        "code_challenge" = some (genChallenge codeVerifier) ∧
    lookupParam (getOAuth2ConnectionURL genChallenge clientId codeVerifier).params
        "code_challenge_method" = some "S256" ∧
    lookupParam (getOAuth2ConnectionURL genChallenge clientId codeVerifier).params
        "state" = some codeVerifier ∧
    (∀ clientSecret code redirectURI : String,
        lookupParam
          (executeCallbackTokenParams clientSecret
            { code := code, redirectURI := redirectURI, state := codeVerifier })
          "code_verifier" = some codeVerifier) :=
  ⟨rfl, rfl, rfl, rfl, rfl, rfl, fun _ _ _ => rfl⟩

/-- Claim C8: the Telegram `getChatsDictionary` can never signal the end of
pagination - after any number of chained calls (each fed the previous
cursor) the returned cursor is `some (n + 1)`, never the null value its own
sample result documents as the end marker. -/
theorem getChatsDictionary_cursor_never_null (getUpdates : Nat → List TgUpdate)
    (rawSearch : String) :
    ∀ n, chatsCursorAfter getUpdates rawSearch n = some (n + 1) := by
  intro n
  induction n with
  | zero => rfl
  | succ n ih => simp [chatsCursorAfter, ih, getChatsDictionary]

/-- Helper: the filter predicate of the incremental path agrees with the
spec-level event condition: the id is new to the snapshot, or the current
watch-field value differs from the stored one. -/
theorem isNewOrUpdated_iff (S : List AirRecord) (col : String) (e : AirRecord) :
    isNewOrUpdated S col e = true ↔
      (e.id ∉ S.map AirRecord.id ∨ getField e col ≠ storedValue S col e.id) := by
  unfold isNewOrUpdated storedValue
  cases h : S.reverse.find? (fun p => p.id == e.id) with
  | none =>
    simp only [h]
    constructor
    · intro _
      left
      intro hmem
      obtain ⟨p, hp, hpe⟩ := List.mem_map.mp hmem
      have hnp := List.find?_eq_none.mp h p (List.mem_reverse.mpr hp)
      simp [hpe] at hnp
    · intro _
      trivial
  | some p =>
    simp only [h]
    have hpmem : p ∈ S.reverse := List.mem_of_find?_eq_some h
    have hpe := List.find?_some h
    have hpe' : p.id = e.id := by simpa using hpe
    have hid : e.id ∈ S.map AirRecord.id :=
      List.mem_map.mpr ⟨p, List.mem_reverse.mp hpmem, hpe'⟩
    constructor
    · intro hb
      right
      exact bne_iff_ne.mp hb
    · intro hor
      cases hor with
      | inl habs => exact absurd hid habs
      | inr hne => exact bne_iff_ne.mpr hne

/-- Claim C1: in incremental mode (snapshot present) `onNewOrUpdatedRecord`
replaces the state wholesale with the current list, and its events are the
order-preserving filtration of the current list keeping exactly the records
whose id is absent from the snapshot or whose watch-field value differs from
the stored one. -/
theorem incremental_change_detection (S C : List AirRecord) (col : String) :
    (onNewOrUpdatedRecord { learningMode := false, state := some S } C col).state =
      some C ∧
    (onNewOrUpdatedRecord { learningMode := false, state := some S } C col).events =
      (C.filter (isNewOrUpdated S col)).map some ∧
    (∀ e : AirRecord,
      some e ∈ (onNewOrUpdatedRecord { learningMode := false, state := some S } C col).events ↔
        e ∈ C ∧
          (e.id ∉ S.map AirRecord.id ∨ getField e col ≠ storedValue S col e.id)) := by
  refine ⟨rfl, rfl, ?_⟩
  intro e
  have hev : (onNewOrUpdatedRecord { learningMode := false, state := some S } C col).events =
      (C.filter (isNewOrUpdated S col)).map some := rfl
  rw [hev]
  constructor
  · intro hm
    obtain ⟨x, hx, hxe⟩ := List.mem_map.mp hm
    obtain rfl := Option.some.inj hxe
    have hx' := List.mem_filter.mp hx
    exact ⟨hx'.1, (isNewOrUpdated_iff S col x).mp hx'.2⟩
  · rintro ⟨hC, hcond⟩
    exact List.mem_map.mpr
      ⟨e, List.mem_filter.mpr ⟨hC, (isNewOrUpdated_iff S col e).mpr hcond⟩, rfl⟩

/-- Helper: the executable prefix test coincides with `List.IsPrefix`. -/
theorem charsPrefix_iff (n : List Char) :
    ∀ h : List Char, charsPrefix n h = true ↔ n <+: h := by
  induction n with
  | nil =>
    intro h
    simp [charsPrefix]
  | cons a as ih =>
    intro h
    cases h with
    | nil => simp [charsPrefix]
    | cons b bs =>
      simp [charsPrefix, ih, List.cons_prefix_cons, and_comm]

/-- Helper: the executable substring test coincides with `List.IsInfix`. -/
theorem charsSub_iff (n : List Char) :
    ∀ h : List Char, charsSub n h = true ↔ n <:+: h := by
  intro h
  induction h with
  | nil =>
    simp [charsSub, List.isEmpty_iff]
  | cons b bs ih =>
    simp [charsSub, charsPrefix_iff, ih, List.infix_cons_iff]

/-- Helper: `containsCI hay needle` holds exactly when the lowercased needle
occurs contiguously in the lowercased haystack. -/
theorem containsCI_iff (hay needle : String) :
    containsCI hay needle = true ↔
      lowerChars needle <:+: lowerChars hay :=
  charsSub_iff _ _

/-- Claim C9: with a non-empty search, a dictionary operation keeps, out of
the single fetched page and in page order, exactly the items one of whose
named fields (`id`, `name`) contains the search string case-insensitively -
where containment means the lowercased search occurring inside the
lowercased field value - and an empty search keeps every fetched item; all
returned items are projections of the fetched page. -/
theorem dictionary_local_page_filtering (page : BasesPage) (tables : List Table)
    (search : String) (hs : search ≠ "") :
    (getBasesDictionary page search).items =
      (page.bases.filter (fun b =>
        containsCI b.id search ||
          (match b.name with
           | some n => containsCI n search
           | none => false))).map projBase ∧
    (getBasesDictionary page "").items = page.bases.map projBase ∧
    (∀ it ∈ (getBasesDictionary page search).items,
      ∃ b ∈ page.bases, it = projBase b) ∧
    (getTablesDictionary tables search).items =
      (tables.filter (fun t =>
        containsCI t.id search || containsCI t.name search)).map projTable ∧
    (∀ hay needle : String,
      containsCI hay needle = true ↔
        lowerChars needle <:+: lowerChars hay) := by
  have hbases : (getBasesDictionary page search).items =
      (page.bases.filter (fun b =>
        containsCI b.id search ||
          (match b.name with
           | some n => containsCI n search
           | none => false))).map projBase := by
    simp only [getBasesDictionary, if_pos hs]
    congr 1
    unfold searchFilter
    apply List.filter_congr
    intro b _
    cases hb : b.name <;> simp [baseGet, hb]
  refine ⟨hbases, ?_, ?_, ?_, fun hay needle => containsCI_iff hay needle⟩
  · simp [getBasesDictionary]
  · intro it hit
    rw [hbases] at hit
    obtain ⟨b, hb, hpb⟩ := List.mem_map.mp hit
    exact ⟨b, (List.mem_filter.mp hb).1, hpb.symm⟩
  · simp only [getTablesDictionary, if_pos hs]
    congr 1
    unfold searchFilter
    apply List.filter_congr
    intro t _
    simp [tableGet]

/-- Claim C9, witness: the spec scenario - the page
`[{id: a, name: Apples}, {id: b, name: Bananas}]` searched for `an` over the
name and id fields keeps only `Bananas`. -/
theorem dictionary_local_page_filtering_witness :
    ("an" : String) ≠ "" ∧
    (getBasesDictionary
        { bases := [{ id := "a", name := some "Apples" },
                    { id := "b", name := some "Bananas" }], offset := none }
        "an").items =
      ([{ id := "a", name := some "Apples" },
        { id := "b", name := some "Bananas" }].filter (fun b =>
          containsCI b.id "an" ||
            (match b.name with
             | some n => containsCI n "an"
             | none => false))).map projBase ∧
    (getBasesDictionary
        { bases := [{ id := "a", name := some "Apples" },
                    { id := "b", name := some "Bananas" }], offset := none }
        "an").items =
      [{ label := "Bananas", note := "ID: b", value := "b" }] :=
  ⟨by decide,
    (dictionary_local_page_filtering
      { bases := [{ id := "a", name := some "Apples" },
                  { id := "b", name := some "Bananas" }], offset := none }
      [] "an" (by decide)).1,
    by decide⟩

/-- Claim C10: `getFieldsDictionary` and `#getCreatedColumnName` resolve the
table by id only, so a `tableIdOrName` that is a table's name but no table's
id leaves them dereferencing `undefined` (a `TypeError`), while the shared
`#getTableSchema` helper accepts the same input and returns a table matching
it by id or name. -/
theorem table_lookup_by_id_only (tables : List Table) (q search : String)
    (hid : ∀ t ∈ tables, t.id ≠ q) (t₀ : Table) (ht₀ : t₀ ∈ tables)
    (hname : t₀.name = q) :
    getFieldsDictionary tables q search = JsOutcome.typeError ∧
    getCreatedColumnName tables q = JsOutcome.typeError ∧
    ∃ t ∈ tables, getTableSchema tables q = some t ∧ (t.id = q ∨ t.name = q) := by
  have hfind : tables.find? (fun t => t.id == q) = none := by
    apply List.find?_eq_none.mpr
    intro t htm
    simp [hid t htm]
  refine ⟨?_, ?_, ?_⟩
  · simp [getFieldsDictionary, hfind]
  · simp [getCreatedColumnName, hfind]
  · have hsome : (tables.find? (fun t => t.id == q || t.name == q)).isSome := by
      rw [List.find?_isSome]
      exact ⟨t₀, ht₀, by simp [hname]⟩
    obtain ⟨t, htf⟩ := Option.isSome_iff_exists.mp hsome
    refine ⟨t, List.mem_of_find?_eq_some htf, htf, ?_⟩
    have hp := List.find?_some htf
    simpa using hp

/-- Claim C10, witness: querying the one-table schema by the table's name
`Tasks` (whose id is `tbl1`) makes the id-only lookups fail while the shared
schema helper still finds the table. -/
theorem table_lookup_by_id_only_witness :
    (∀ t ∈ sampleTables, Table.id t ≠ "Tasks") ∧
    sampleTasksTable ∈ sampleTables ∧
    sampleTasksTable.name = "Tasks" ∧
    (getFieldsDictionary sampleTables "Tasks" "" = JsOutcome.typeError ∧
     getCreatedColumnName sampleTables "Tasks" = JsOutcome.typeError ∧
     ∃ t ∈ sampleTables, getTableSchema sampleTables "Tasks" = some t ∧
       (t.id = "Tasks" ∨ t.name = "Tasks")) :=
  ⟨by decide, by decide, rfl,
    table_lookup_by_id_only sampleTables "Tasks" "" (by decide) sampleTasksTable
      (by decide) rfl⟩

end FlowRunner
